import Mathlib

/-!
Shallow embedding of Project Elysium: `game_engine.py` (the console variant,
namespace `Engine`) and `main.py` (the FastAPI/WebSocket push variant,
namespace `WebApp`).

Network effects are modelled by data: each modelled HTTP interaction is a
value describing what the remote service did, and the embedded functions
compute the value the Python function would return together with the
observable effects (number of HTTP calls performed, sleep durations, messages
sent to the client, files saved).
-/

namespace Elysium

/-- Python str.strip() whitespace test, restricted to the ASCII whitespace
characters (space, tab, newline, carriage return, vertical tab, form feed). -/
def pyIsSpace (c : Char) : Bool :=
  c == ' ' || c == '\t' || c == '\n' || c == '\r' || c == '\x0B' || c == '\x0C'

/-- Leading-whitespace removal, as performed by Python str.strip(). -/
def pyLStrip (l : List Char) : List Char := l.dropWhile pyIsSpace

/-- Trailing-whitespace removal, as performed by Python str.strip(). -/
def pyRStrip (l : List Char) : List Char := (l.reverse.dropWhile pyIsSpace).reverse

/-- Python str.strip(): remove leading and trailing whitespace. -/
def pyStripBoth (l : List Char) : List Char := pyRStrip (pyLStrip l)

/-- The post-processing applied to visual prompts in both variants
(game_engine.py line 53, main.py line 55):
.replace of each newline by a space, removal of every star, then .strip(). -/
def pyCleanL (l : List Char) : List Char :=
  pyStripBoth ((l.map fun c => if c == '\n' then ' ' else c).filter fun c => !(c == '*'))

/-- String-level version of the visual-prompt post-processing. -/
def pyClean (s : String) : String := String.mk (pyCleanL s.toList)

/-- Python str.upper(), faithful on the ASCII range the program compares
against ("A", "B", "QUIT"). -/
def pyUpper (s : String) : String := String.mk (s.toList.map Char.toUpper)

/-- Result observed at the boundary of a Python function that returns a
string: either a returned value, or an uncaught exception propagating past
the boundary. -/
inductive PyStr where
  | ret (s : String)
  | raised
deriving DecidableEq, Repr

/-- One element of the parsed JSON array data.candidates[0].content.parts:
the key "text" may be absent. -/
structure GPart where
  text : Option String
deriving DecidableEq, Repr

/-- Value of the "content" key of a candidate: the key "parts" may be absent. -/
structure GContent where
  parts : Option (List GPart)
deriving DecidableEq, Repr

/-- One element of the "candidates" array: the key "content" may be absent. -/
structure GCandidate where
  content : Option GContent
deriving DecidableEq, Repr

/-- Parsed JSON body of a 2xx Gemini response: the key "candidates" may be
absent. -/
structure GeminiBody where
  candidates : Option (List GCandidate)
deriving DecidableEq, Repr

/-- Outcome of the POST to the Gemini endpoint as seen by the Python code.
transportError covers every requests.exceptions.RequestException raised
inside the try block: connection failure, HTTP error status raised by
raise_for_status, and a body response.json() cannot decode. ok carries the
parsed JSON body of a success response. -/
inductive GeminiHttp where
  | transportError
  | ok (body : GeminiBody)
deriving DecidableEq, Repr

/-- The nested extraction data.candidates[0].content.parts[0].text as a
total Option-valued lookup (used to state theorems, not by the embedding
of the code itself). -/
def firstCandidateText (b : GeminiBody) : Option String :=
  b.candidates.bind fun cs =>
    cs.head?.bind fun c =>
      c.content.bind fun ct =>
        ct.parts.bind fun ps =>
          ps.head?.bind fun p => p.text

/-- The extraction content.parts[0].text of one candidate as a total
Option-valued lookup (used to state theorems). -/
def candText (c : GCandidate) : Option String :=
  c.content.bind fun ct =>
    ct.parts.bind fun ps =>
      ps.head?.bind fun p => p.text

/-- Python truthiness of data.get("candidates"): true exactly when the key
is present and holds a non-empty list. -/
def truthyCandidates (b : GeminiBody) : Bool :=
  match b.candidates with
  | some (_ :: _) => true
  | _ => false

/-- The extraction data["candidates"][0]["content"]["parts"][0]["text"]
performed on the first candidate once data.get("candidates") is truthy.
A missing key raises KeyError and an empty parts array raises IndexError;
neither is a requests.exceptions.RequestException, so neither is caught. -/
def extractFirst (c : GCandidate) : PyStr :=
  match c.content with
  | none => .raised
  | some ct =>
    match ct.parts with
    | none => .raised
    | some [] => .raised
    | some (p :: _) =>
      match p.text with
      | none => .raised
      | some t => .ret t

namespace Engine

/-- game_engine.py lines 27-40. The prompt only feeds the request payload;
the returned value is determined by the HTTP outcome. -/
def call_gemini_api (_prompt : String) (resp : GeminiHttp) : PyStr :=
  match resp with
  | .transportError => .ret "Error: Could not connect to the AI."
  | .ok body =>
    match body.candidates with
    | some (c :: _) => extractFirst c
    | _ => .ret "Error: The AI returned an unexpected text response."

/-- The fixed instruction wrapped around a scene in generate_visual_prompt
(game_engine.py lines 45-51). -/
def visual_wrap (story_text : String) : String :=
  "You are an AI assistant that creates safe, simple, and concise image generation prompts. Based on the following fantasy story scene, create a very short, clean, descriptive prompt. It must be under 20 words. Style: beautiful digital art, fantasy, cinematic lighting. Scene: \x27" ++ story_text ++ "\x27"

/-- game_engine.py lines 43-55, with call_gemini_api abstracted as the
oracle gen mapping the prompt sent to the text returned. -/
def generate_visual_prompt (gen : String → String) (story_text : String) : String :=
  pyClean (gen (visual_wrap story_text))

end Engine

namespace WebApp

/-- main.py lines 34-45: one sentinel serves both the no-candidates case and
the caught RequestException case. -/
def call_gemini_api (_prompt : String) (resp : GeminiHttp) : PyStr :=
  match resp with
  | .transportError => .ret "Error: The AI storyteller is currently unavailable."
  | .ok body =>
    match body.candidates with
    | some (c :: _) => extractFirst c
    | _ => .ret "Error: The AI storyteller is currently unavailable."

/-- The fixed instruction wrapped around a scene in
generate_visual_prompt_async (main.py lines 48-53). -/
def visual_wrap (story_text : String) : String :=
  "You are an AI assistant creating image prompts. Based on the following scene, create a short, descriptive prompt under 20 words. Style: beautiful digital art, fantasy, cinematic lighting. Scene: \x27" ++ story_text ++ "\x27"

/-- main.py lines 47-55, with the completion client abstracted as the
oracle gen. -/
def generate_visual_prompt_async (gen : String → String) (story_text : String) : String :=
  pyClean (gen (visual_wrap story_text))

end WebApp

/-- Body of a response from the Stable Diffusion endpoint:
either bytes PIL can decode as an image (abstracted by an identifier),
a JSON object carrying both the "error" and "estimated_time" keys,
a JSON object lacking one of those keys, or a body that is not JSON. -/
inductive SDBody where
  | imageBytes (img : Nat)
  | loadingJson (err : String) (estimated : Int)
  | otherJson
  | rawText
deriving DecidableEq, Repr

/-- Outcome of one POST to the Stable Diffusion endpoint. exn is a
RequestException raised without a response attached (connection failure,
timeout), so e.response is None. resp is a received response with its
status code and body; raise_for_status turns statuses 400-599 into an
HTTPError whose e.response is that response. -/
inductive SDHttp where
  | exn
  | resp (status : Nat) (body : SDBody)
deriving DecidableEq, Repr

/-- Value observed at the boundary of the illustration client: an image
(engine: a PIL image, webapp: its base64 string), None, or an uncaught
exception (PIL fails to decode a success body). -/
inductive SDResult where
  | image (img : Nat)
  | noImage
  | raised
deriving DecidableEq, Repr

/-- One run of the illustration client: its boundary result, the number of
HTTP calls it performed, and the sleep durations it executed in order. -/
structure SDRun where
  result : SDResult
  calls : Nat
  sleeps : List Int
deriving DecidableEq, Repr

namespace Engine

/-- game_engine.py lines 58-88. The outcomes list scripts the successive
HTTP interactions (each attempt consumes one outcome; the recursive retry
consumes the rest); none is returned only when the script is exhausted.
Note `if e.response:` uses requests Response truthiness, which is
status_code < 400, so inside the except branch (status 400-599) it is
always false and the loading retry cannot trigger. -/
def generate_image_with_stable_diffusion (hfKey : String) : List SDHttp → Option SDRun
  | [] => if hfKey = "" then some ⟨.noImage, 0, []⟩ else none
  | .exn :: _ => if hfKey = "" then some ⟨.noImage, 0, []⟩ else some ⟨.noImage, 1, []⟩
  | .resp status body :: rest =>
    if hfKey = "" then some ⟨.noImage, 0, []⟩
    else if 400 ≤ status ∧ status < 600 then
      if status < 400 then
        match body with
        | .loadingJson _ est =>
          match generate_image_with_stable_diffusion hfKey rest with
          | none => none
          | some r => some ⟨r.result, r.calls + 1, est :: r.sleeps⟩
        | _ => some ⟨.noImage, 1, []⟩
      else some ⟨.noImage, 1, []⟩
    else
      match body with
      | .imageBytes i => some ⟨.image i, 1, []⟩
      | _ => some ⟨.raised, 1, []⟩

end Engine

namespace WebApp

/-- main.py lines 61-75: a single attempt, no loading handling; every caught
RequestException yields None, a success body PIL cannot decode raises. -/
def generate_image_with_stable_diffusion (hfKey : String) (o : SDHttp) : SDRun :=
  if hfKey = "" then ⟨.noImage, 0, []⟩
  else
    match o with
    | .exn => ⟨.noImage, 1, []⟩
    | .resp status body =>
      if 400 ≤ status ∧ status < 600 then ⟨.noImage, 1, []⟩
      else
        match body with
        | .imageBytes i => ⟨.image i, 1, []⟩
        | _ => ⟨.raised, 1, []⟩

end WebApp

/-- The transcript line recording the premise, f-string
"The user's character is {user_idea}." (game_engine.py line 97,
main.py line 99). -/
def premiseLine (idea : String) : String :=
  "The user\x27s character is " ++ idea ++ "."

namespace Engine

/-- Session state of the console variant: the transcript, the scene shown,
the illustration counter and saved files, plus counters of how many times
each remote client was invoked (every network call happens inside those
clients). -/
structure ConsoleState where
  story_history : List String
  scene_text : String
  scene_counter : Nat
  geminiCalls : Nat
  imageGenCalls : Nat
  savedImages : List Nat
deriving DecidableEq, Repr

/-- game_engine.py lines 100-105. -/
def initial_prompt (idea : String) : String :=
  "You are a text adventure game\x27s Dungeon Master. The user\x27s character and setting is: \x27" ++ idea ++ "\x27. Describe the opening scene in a vivid, engaging style. End your response by giving the user two clear choices, labeled A and B."

/-- game_engine.py lines 136-141: the continuation prompt embedding the
whitespace-joined transcript. -/
def next_prompt (history : List String) : String :=
  "You are a text adventure game\x27s Dungeon Master. Continue the story based on the user\x27s last choice. Describe the outcome and the new scene. Keep it consistent and engaging. End with two new, clear choices, labeled A and B. Here is the story so far:\n" ++ String.intercalate " " history

/-- game_engine.py lines 96-117: the part before the while loop. gen is the
completion-client oracle (prompt sent to text returned), ig the
illustration-client oracle (visual prompt to optional image). -/
def start (gen : String → String) (ig : String → Option Nat) (idea : String) : ConsoleState :=
  let scene := gen (initial_prompt idea)
  let vp := generate_visual_prompt gen scene
  let img := ig vp
  { story_history := [premiseLine idea, "AI Scene: " ++ scene]
    scene_text := scene
    scene_counter := match img with | some _ => 1 | none => 0
    geminiCalls := 2
    imageGenCalls := 1
    savedImages := match img with | some i => [i] | none => [] }

/-- game_engine.py lines 134-153: processing of one valid, already
upper-cased choice. -/
def turn (gen : String → String) (ig : String → Option Nat) (st : ConsoleState)
    (c : String) : ConsoleState :=
  let h1 := st.story_history ++ ["User chose: " ++ c]
  let scene := gen (next_prompt h1)
  let h2 := h1 ++ ["AI Scene: " ++ scene]
  let vp := generate_visual_prompt gen scene
  let img := ig vp
  { story_history := h2
    scene_text := scene
    scene_counter := st.scene_counter + (match img with | some _ => 1 | none => 0)
    geminiCalls := st.geminiCalls + 2
    imageGenCalls := st.imageGenCalls + 1
    savedImages := st.savedImages ++ (match img with | some i => [i] | none => []) }

/-- game_engine.py lines 119-153: the while loop, run on a list of console
inputs. "QUIT" (after upper-casing) breaks, inputs other than "A"/"B"
re-prompt leaving everything unchanged, valid choices run a turn. -/
def main_game_loop_from (gen : String → String) (ig : String → Option Nat) :
    ConsoleState → List String → ConsoleState
  | st, [] => st
  | st, input :: rest =>
    let u := pyUpper input
    if u = "QUIT" then st
    else if u = "A" ∨ u = "B" then
      main_game_loop_from gen ig (turn gen ig st u) rest
    else main_game_loop_from gen ig st rest

/-- game_engine.py lines 91-153: the whole session on a given idea and a
list of console inputs. -/
def main_game_loop (gen : String → String) (ig : String → Option Nat)
    (idea : String) (inputs : List String) : ConsoleState :=
  main_game_loop_from gen ig (start gen ig idea) inputs

/-- Number of inputs that advance a turn: those whose upper-casing is "A" or
"B", counted before the first "QUIT". -/
def validTurns : List String → Nat
  | [] => 0
  | input :: rest =>
    let u := pyUpper input
    if u = "QUIT" then 0
    else if u = "A" ∨ u = "B" then validTurns rest + 1
    else validTurns rest

end Engine

namespace WebApp

/-- One inbound WebSocket JSON message: the keys "idea" and "choice" may
each be absent. -/
structure WsMsg where
  idea : Option String
  choice : Option String
deriving DecidableEq, Repr

/-- One outbound WebSocket JSON message. -/
inductive Sent where
  | story (text : String)
  | image (data : Nat)
deriving DecidableEq, Repr

/-- Session state of the push variant: transcript, last scene, messages sent
to the client in order, and how often each remote client was invoked. -/
structure WsState where
  story_history : List String
  scene_text : String
  sent : List Sent
  geminiCalls : Nat
  imageGenCalls : Nat
deriving DecidableEq, Repr

/-- main.py line 98: the default premise used when "idea" is absent. -/
def defaultIdea : String := "a brave adventurer in a mysterious land"

/-- main.py lines 102-107. -/
def initial_prompt (idea : String) : String :=
  "You are a text adventure game\x27s Dungeon Master. The user\x27s character and setting is: \x27" ++ idea ++ "\x27. Describe the opening scene vividly. Your response MUST end with two clear choices for the user, formatted exactly as \x27A) [Choice text]\x27 and \x27B) [Choice text]\x27 on separate lines."

/-- main.py lines 128-133. -/
def next_prompt (history : List String) : String :=
  "You are a text adventure game\x27s Dungeon Master. Continue the story based on the user\x27s last choice. Describe the outcome and the new scene. Keep the story consistent. Your response MUST end with two new, clear choices, formatted exactly as \x27A) [Choice text]\x27 and \x27B) [Choice text]\x27 on separate lines. Here is the story so far:\n" ++ String.intercalate " " history

/-- main.py lines 95-117: receipt of the session-start message and the
opening pipeline, before the while loop. -/
def start (gen : String → String) (ig : String → Option Nat) (m : WsMsg) : WsState :=
  let idea := m.idea.getD defaultIdea
  let scene := gen (initial_prompt idea)
  let vp := generate_visual_prompt_async gen scene
  let img := ig vp
  { story_history := [premiseLine idea, "AI Scene: " ++ scene]
    scene_text := scene
    sent := [Sent.story scene] ++ (match img with | some i => [Sent.image i] | none => [])
    geminiCalls := 2
    imageGenCalls := 1 }

/-- main.py lines 125-143: processing of one valid choice. -/
def turn (gen : String → String) (ig : String → Option Nat) (st : WsState)
    (c : String) : WsState :=
  let h1 := st.story_history ++ ["User chose: " ++ c]
  let scene := gen (next_prompt h1)
  let h2 := h1 ++ ["AI Scene: " ++ scene]
  let vp := generate_visual_prompt_async gen scene
  let img := ig vp
  { story_history := h2
    scene_text := scene
    sent := st.sent ++ [Sent.story scene] ++ (match img with | some i => [Sent.image i] | none => [])
    geminiCalls := st.geminiCalls + 2
    imageGenCalls := st.imageGenCalls + 1 }

/-- main.py lines 119-143: the while loop over the remaining messages.
data.get("choice") not being exactly "A" or "B" (including an absent key)
silently continues. -/
def loop (gen : String → String) (ig : String → Option Nat) :
    WsState → List WsMsg → WsState
  | st, [] => st
  | st, m :: rest =>
    match m.choice with
    | some c =>
      if c = "A" ∨ c = "B" then loop gen ig (turn gen ig st c) rest
      else loop gen ig st rest
    | none => loop gen ig st rest

/-- main.py lines 93-143: the session, fed the initial message and the
remaining messages. -/
def websocket_endpoint (gen : String → String) (ig : String → Option Nat)
    (first : WsMsg) (rest : List WsMsg) : WsState :=
  loop gen ig (start gen ig first) rest

/-- Number of messages whose "choice" value is exactly "A" or "B". -/
def validTurns : List WsMsg → Nat
  | [] => 0
  | m :: rest =>
    match m.choice with
    | some c => if c = "A" ∨ c = "B" then validTurns rest + 1 else validTurns rest
    | none => validTurns rest

end WebApp

/-- A 2xx Gemini body whose first candidate text is the empty string. -/
def bodyEmptyText : GeminiBody := ⟨some [⟨some ⟨some [⟨some ""⟩]⟩⟩]⟩

/-- A 2xx Gemini body with a truthy candidates list whose first candidate
lacks the "content" key. -/
def bodyNoContent : GeminiBody := ⟨some [⟨none⟩]⟩

/-- A 2xx Gemini body whose first candidate text needs cleaning. -/
def bodyMessy : GeminiBody := ⟨some [⟨some ⟨some [⟨some " *hello\nworld* "⟩]⟩⟩]⟩

/-- A sample console-session state used to instantiate theorems. -/
def sampleConsoleState : Engine.ConsoleState := ⟨["p"], "s", 0, 0, 0, []⟩

/-- A sample push-session state used to instantiate theorems. -/
def sampleWsState : WebApp.WsState := ⟨["p"], "s", [], 0, 0⟩

/-- A completion-client oracle returning a fixed scene. -/
def constGen : String → String := fun _ => "S"

/-- An illustration-client oracle returning no image. -/
def noImg : String → Option Nat := fun _ => none

/-! ## Helper lemmas -/

lemma dropWhile_idem {α} (p : α → Bool) (l : List α) :
    (l.dropWhile p).dropWhile p = l.dropWhile p := by
  induction l with
  | nil => rfl
  | cons a t ih =>
    rw [List.dropWhile_cons]
    by_cases h : p a = true
    · simp only [h, if_true]; exact ih
    · simp [List.dropWhile_cons, h]

lemma headDropWhile_not {α} (p : α → Bool) :
    ∀ (l : List α) (a : α), (l.dropWhile p).head? = some a → p a = false := by
  intro l
  induction l with
  | nil => intro a h; simp [List.dropWhile] at h
  | cons x t ih =>
    intro a h
    rw [List.dropWhile_cons] at h
    by_cases hx : p x = true
    · rw [if_pos hx] at h; exact ih a h
    · rw [if_neg hx, List.head?_cons] at h
      cases h
      cases h' : p x with
      | true => exact absurd h' hx
      | false => rfl

lemma exists_append_dropWhile {α} (p : α → Bool) :
    ∀ l : List α, ∃ t, t ++ l.dropWhile p = l := by
  intro l
  induction l with
  | nil => exact ⟨[], rfl⟩
  | cons a t ih =>
    by_cases h : p a = true
    · obtain ⟨u, hu⟩ := ih
      exact ⟨a :: u, by simp [List.dropWhile_cons, h, hu]⟩
    · exact ⟨[], by simp [List.dropWhile_cons, h]⟩

lemma pyRStrip_decomp (l : List Char) : ∃ t, pyRStrip l ++ t = l := by
  obtain ⟨u, hu⟩ := exists_append_dropWhile pyIsSpace l.reverse
  refine ⟨u.reverse, ?_⟩
  have h := congrArg List.reverse hu
  simpa [pyRStrip, List.reverse_append] using h

lemma pyLStrip_fix_of_rStrip {m : List Char} (hm : pyLStrip m = m) :
    pyLStrip (pyRStrip m) = pyRStrip m := by
  cases m with
  | nil => rfl
  | cons a t =>
    have ha : pyIsSpace a = false := by
      have h1 : (pyLStrip (a :: t)).head? = some a := by rw [hm]; rfl
      exact headDropWhile_not pyIsSpace (a :: t) a h1
    obtain ⟨u, hu⟩ := pyRStrip_decomp (a :: t)
    cases hr : pyRStrip (a :: t) with
    | nil => rfl
    | cons b s =>
      rw [hr] at hu
      have hb : b = a := by
        have h := congrArg List.head? hu
        simpa using h
      subst hb
      simp [pyLStrip, List.dropWhile_cons, ha]

lemma pyStripBoth_lFix (l : List Char) : pyLStrip (pyStripBoth l) = pyStripBoth l :=
  pyLStrip_fix_of_rStrip (dropWhile_idem pyIsSpace l)

lemma pyStripBoth_rFix (l : List Char) : pyRStrip (pyStripBoth l) = pyStripBoth l := by
  simp [pyStripBoth, pyRStrip, List.reverse_reverse, dropWhile_idem]

lemma mem_of_mem_dropWhile {α} (p : α → Bool) :
    ∀ (l : List α) (a : α), a ∈ l.dropWhile p → a ∈ l := by
  intro l
  induction l with
  | nil => intro a h; simp [List.dropWhile] at h
  | cons x t ih =>
    intro a h
    rw [List.dropWhile_cons] at h
    by_cases hx : p x = true
    · rw [if_pos hx] at h; exact List.mem_cons_of_mem x (ih a h)
    · rw [if_neg hx] at h; exact h

lemma mem_of_mem_pyStripBoth {l : List Char} {c : Char} (h : c ∈ pyStripBoth l) : c ∈ l := by
  have h1 : c ∈ pyRStrip (pyLStrip l) := h
  rw [pyRStrip, List.mem_reverse] at h1
  have h2 := mem_of_mem_dropWhile pyIsSpace (pyLStrip l).reverse c h1
  rw [List.mem_reverse] at h2
  exact mem_of_mem_dropWhile pyIsSpace l c h2

lemma pyCleanL_no_newline (l : List Char) : '\n' ∉ pyCleanL l := by
  intro h
  have h1 := mem_of_mem_pyStripBoth h
  have h2 := List.mem_filter.mp h1
  obtain ⟨c, hc, hmap⟩ := List.mem_map.mp h2.1
  by_cases hcn : (c == '\n') = true
  · rw [if_pos hcn] at hmap
    exact absurd hmap (by decide)
  · rw [if_neg hcn] at hmap
    exact hcn (by simp [hmap])

lemma pyCleanL_no_star (l : List Char) : '*' ∉ pyCleanL l := by
  intro h
  have h1 := mem_of_mem_pyStripBoth h
  have h2 := List.mem_filter.mp h1
  simpa using h2.2

lemma pyCleanL_lFix (l : List Char) : pyLStrip (pyCleanL l) = pyCleanL l := by
  unfold pyCleanL
  exact pyStripBoth_lFix _

lemma pyCleanL_rFix (l : List Char) : pyRStrip (pyCleanL l) = pyCleanL l := by
  unfold pyCleanL
  exact pyStripBoth_rFix _

lemma extract_of_chain (c : GCandidate) :
    (∀ t, candText c = some t → extractFirst c = .ret t)
    ∧ (candText c = none → extractFirst c = .raised) := by
  rcases c with ⟨_ | ct⟩
  · simp [candText, extractFirst]
  · rcases ct with ⟨_ | ps⟩
    · simp [candText, extractFirst]
    · rcases ps with _ | ⟨p, ps'⟩
      · simp [candText, extractFirst]
      · rcases p with ⟨_ | t⟩
        · simp [candText, extractFirst]
        · simp [candText, extractFirst]

lemma engine_turn_history (gen : String → String) (ig : String → Option Nat)
    (st : Engine.ConsoleState) (c : String) :
    (Engine.turn gen ig st c).story_history =
      st.story_history ++ ["User chose: " ++ c,
        "AI Scene: " ++ gen (Engine.next_prompt (st.story_history ++ ["User chose: " ++ c]))] := by
  simp [Engine.turn, List.append_assoc]

lemma webapp_turn_history (gen : String → String) (ig : String → Option Nat)
    (st : WebApp.WsState) (c : String) :
    (WebApp.turn gen ig st c).story_history =
      st.story_history ++ ["User chose: " ++ c,
        "AI Scene: " ++ gen (WebApp.next_prompt (st.story_history ++ ["User chose: " ++ c]))] := by
  simp [WebApp.turn, List.append_assoc]

lemma engine_loop_len (gen : String → String) (ig : String → Option Nat) :
    ∀ (inputs : List String) (st : Engine.ConsoleState),
      (Engine.main_game_loop_from gen ig st inputs).story_history.length
        = st.story_history.length + 2 * Engine.validTurns inputs := by
  intro inputs
  induction inputs with
  | nil => intro st; simp [Engine.main_game_loop_from, Engine.validTurns]
  | cons u rest ih =>
    intro st
    by_cases hq : pyUpper u = "QUIT"
    · simp [Engine.main_game_loop_from, Engine.validTurns, hq]
    · by_cases hab : pyUpper u = "A" ∨ pyUpper u = "B"
      · simp only [Engine.main_game_loop_from, Engine.validTurns, hq, hab, if_true, if_false,
          ite_true, ite_false]
        rw [ih, engine_turn_history]
        simp [List.length_append]
        omega
      · simp [Engine.main_game_loop_from, Engine.validTurns, hq, hab, ih]

lemma engine_loop_extends (gen : String → String) (ig : String → Option Nat) :
    ∀ (inputs : List String) (st : Engine.ConsoleState),
      ∃ t, st.story_history ++ t
        = (Engine.main_game_loop_from gen ig st inputs).story_history := by
  intro inputs
  induction inputs with
  | nil => intro st; exact ⟨[], by simp [Engine.main_game_loop_from]⟩
  | cons u rest ih =>
    intro st
    by_cases hq : pyUpper u = "QUIT"
    · exact ⟨[], by simp [Engine.main_game_loop_from, hq]⟩
    · by_cases hab : pyUpper u = "A" ∨ pyUpper u = "B"
      · obtain ⟨t, ht⟩ := ih (Engine.turn gen ig st (pyUpper u))
        refine ⟨["User chose: " ++ pyUpper u,
          "AI Scene: " ++ gen (Engine.next_prompt
            (st.story_history ++ ["User chose: " ++ pyUpper u]))] ++ t, ?_⟩
        simp only [Engine.main_game_loop_from, hq, hab, if_true, if_false, ite_true, ite_false]
        rw [← ht, engine_turn_history]
        simp [List.append_assoc]
      · obtain ⟨t, ht⟩ := ih st
        refine ⟨t, ?_⟩
        simp only [Engine.main_game_loop_from, hq, hab, if_false, ite_false]
        exact ht

lemma ws_loop_len (gen : String → String) (ig : String → Option Nat) :
    ∀ (msgs : List WebApp.WsMsg) (st : WebApp.WsState),
      (WebApp.loop gen ig st msgs).story_history.length
        = st.story_history.length + 2 * WebApp.validTurns msgs := by
  intro msgs
  induction msgs with
  | nil => intro st; simp [WebApp.loop, WebApp.validTurns]
  | cons m rest ih =>
    intro st
    rcases m with ⟨mi, mc⟩
    rcases mc with _ | c
    · simp [WebApp.loop, WebApp.validTurns, ih]
    · by_cases hc : c = "A" ∨ c = "B"
      · simp only [WebApp.loop, WebApp.validTurns, hc, if_true, ite_true]
        rw [ih, webapp_turn_history]
        simp [List.length_append]
        omega
      · simp [WebApp.loop, WebApp.validTurns, hc, ih]

lemma ws_loop_extends (gen : String → String) (ig : String → Option Nat) :
    ∀ (msgs : List WebApp.WsMsg) (st : WebApp.WsState),
      ∃ t, st.story_history ++ t = (WebApp.loop gen ig st msgs).story_history := by
  intro msgs
  induction msgs with
  | nil => intro st; exact ⟨[], by simp [WebApp.loop]⟩
  | cons m rest ih =>
    intro st
    rcases m with ⟨mi, mc⟩
    rcases mc with _ | c
    · obtain ⟨t, ht⟩ := ih st
      refine ⟨t, ?_⟩
      simpa [WebApp.loop] using ht
    · by_cases hc : c = "A" ∨ c = "B"
      · obtain ⟨t, ht⟩ := ih (WebApp.turn gen ig st c)
        refine ⟨["User chose: " ++ c,
          "AI Scene: " ++ gen (WebApp.next_prompt
            (st.story_history ++ ["User chose: " ++ c]))] ++ t, ?_⟩
        simp only [WebApp.loop, hc, if_true, ite_true]
        rw [← ht, webapp_turn_history]
        simp [List.append_assoc]
      · obtain ⟨t, ht⟩ := ih st
        refine ⟨t, ?_⟩
        simp only [WebApp.loop, hc, if_false, ite_false]
        exact ht

/-! ## Claim theorems -/

/-- Claim C1, as stated, is false: the completion client can return the empty
string (neither non-empty text nor a sentinel) when the first candidate text
is empty, it raises an uncaught KeyError past its boundary when a truthy
candidates list has a malformed first candidate, and the console variant uses
two distinct sentinel strings, so there is no single "exact fixed sentinel". -/
theorem c1_counterexample :
    Engine.call_gemini_api "p" (GeminiHttp.ok bodyEmptyText) = PyStr.ret ""
    ∧ WebApp.call_gemini_api "p" (GeminiHttp.ok bodyEmptyText) = PyStr.ret ""
    ∧ Engine.call_gemini_api "p" (GeminiHttp.ok bodyNoContent) = PyStr.raised
    ∧ WebApp.call_gemini_api "p" (GeminiHttp.ok bodyNoContent) = PyStr.raised
    ∧ Engine.call_gemini_api "p" (GeminiHttp.ok ⟨none⟩)
        = PyStr.ret "Error: The AI returned an unexpected text response."
    ∧ "Error: The AI returned an unexpected text response."
        ≠ "Error: Could not connect to the AI." :=
  ⟨rfl, rfl, rfl, rfl, rfl, by decide⟩

/-- Claim C1 (amended): for every prompt and HTTP outcome, each variant of
call_gemini_api returns the first candidate text when it is present (possibly
empty), returns its fixed no-candidates sentinel when the candidates list is
absent or empty, converts every transport-level failure to its fixed
transport sentinel (the push variant uses one sentinel for both cases, the
console variant uses two distinct ones), and raises only when the candidates
list is truthy but its first candidate lacks the expected nested fields. -/
theorem c1_completion_client_behaviour (prompt : String) (resp : GeminiHttp) :
    (resp = GeminiHttp.transportError →
        Engine.call_gemini_api prompt resp = PyStr.ret "Error: Could not connect to the AI."
      ∧ WebApp.call_gemini_api prompt resp
          = PyStr.ret "Error: The AI storyteller is currently unavailable.")
    ∧ (∀ body, resp = GeminiHttp.ok body →
        (∀ t, firstCandidateText body = some t →
            Engine.call_gemini_api prompt resp = PyStr.ret t
          ∧ WebApp.call_gemini_api prompt resp = PyStr.ret t)
        ∧ (truthyCandidates body = false →
            Engine.call_gemini_api prompt resp
              = PyStr.ret "Error: The AI returned an unexpected text response."
          ∧ WebApp.call_gemini_api prompt resp
              = PyStr.ret "Error: The AI storyteller is currently unavailable.")
        ∧ (truthyCandidates body = true → firstCandidateText body = none →
            Engine.call_gemini_api prompt resp = PyStr.raised
          ∧ WebApp.call_gemini_api prompt resp = PyStr.raised)) := by
  constructor
  · rintro rfl
    exact ⟨rfl, rfl⟩
  · rintro body rfl
    rcases body with ⟨_ | cs⟩
    · refine ⟨?_, ?_, ?_⟩
      · intro t ht
        simp [firstCandidateText] at ht
      · intro _
        exact ⟨rfl, rfl⟩
      · intro htruthy
        simp [truthyCandidates] at htruthy
    · rcases cs with _ | ⟨c, cs'⟩
      · refine ⟨?_, ?_, ?_⟩
        · intro t ht
          simp [firstCandidateText] at ht
        · intro _
          exact ⟨rfl, rfl⟩
        · intro htruthy
          simp [truthyCandidates] at htruthy
      · refine ⟨?_, ?_, ?_⟩
        · intro t ht
          have ht' : candText c = some t := by
            simpa [firstCandidateText, candText] using ht
          have h := (extract_of_chain c).1 t ht'
          exact ⟨by simp [Engine.call_gemini_api, h], by simp [WebApp.call_gemini_api, h]⟩
        · intro hf
          simp [truthyCandidates] at hf
        · intro _ hnone
          have hn' : candText c = none := by
            simpa [firstCandidateText, candText] using hnone
          have h := (extract_of_chain c).2 hn'
          exact ⟨by simp [Engine.call_gemini_api, h], by simp [WebApp.call_gemini_api, h]⟩

/-- Witness for C1's amended theorem at concrete inputs. -/
theorem c1_completion_client_behaviour_witness :
    Engine.call_gemini_api "p" (GeminiHttp.ok bodyMessy) = PyStr.ret " *hello\nworld* "
    ∧ WebApp.call_gemini_api "p" (GeminiHttp.ok bodyMessy) = PyStr.ret " *hello\nworld* " :=
  ((c1_completion_client_behaviour "p" (GeminiHttp.ok bodyMessy)).2 bodyMessy rfl).1
    " *hello\nworld* " rfl

/-- Claim C2, as stated, is false: after one valid turn the console transcript
has 4 entries, not 1 + 2 * 1 = 3 (the opening scene is its own entry besides
the premise), and the push variant does record the initial premise as its own
first transcript line rather than omitting it. -/
theorem c2_counterexample :
    (Engine.main_game_loop constGen noImg "knight" ["A"]).story_history.length = 4
    ∧ (1 + 2 * 1 : Nat) ≠ 4
    ∧ (WebApp.websocket_endpoint constGen noImg ⟨some "knight", none⟩ []).story_history
        = ["The user\x27s character is knight.", "AI Scene: S"] :=
  ⟨by decide, by decide, by decide⟩

/-- Claim C2 (amended): the transcript is append-only and order-preserving in
both variants, and for any sequence of N valid turns its length equals
2 + 2 * N in both variants: the initial premise line, the opening scene line,
then one choice line and one scene line per turn; the push variant records
the premise as its own line exactly like the console variant. -/
theorem c2_transcript_bookkeeping :
    (∀ (gen : String → String) (ig : String → Option Nat) (idea : String)
        (inputs : List String),
        (Engine.main_game_loop gen ig idea inputs).story_history.length
          = 2 + 2 * Engine.validTurns inputs)
    ∧ (∀ (gen : String → String) (ig : String → Option Nat) (first : WebApp.WsMsg)
        (rest : List WebApp.WsMsg),
        (WebApp.websocket_endpoint gen ig first rest).story_history.length
          = 2 + 2 * WebApp.validTurns rest)
    ∧ (∀ (gen : String → String) (ig : String → Option Nat) (st : Engine.ConsoleState)
        (inputs : List String),
        ∃ t, st.story_history ++ t
          = (Engine.main_game_loop_from gen ig st inputs).story_history)
    ∧ (∀ (gen : String → String) (ig : String → Option Nat) (st : WebApp.WsState)
        (msgs : List WebApp.WsMsg),
        ∃ t, st.story_history ++ t = (WebApp.loop gen ig st msgs).story_history) := by
  refine ⟨?_, ?_, ?_, ?_⟩
  · intro gen ig idea inputs
    rw [Engine.main_game_loop, engine_loop_len]
    have h : (Engine.start gen ig idea).story_history.length = 2 := by
      simp [Engine.start]
    rw [h]
  · intro gen ig first rest
    rw [WebApp.websocket_endpoint, ws_loop_len]
    have h : (WebApp.start gen ig first).story_history.length = 2 := by
      simp [WebApp.start]
    rw [h]
  · intro gen ig st inputs
    exact engine_loop_extends gen ig inputs st
  · intro gen ig st msgs
    exact ws_loop_extends gen ig msgs st

/-- Claim C3: an input whose upper-casing is neither "A" nor "B" (and is not
the console quit signal) leaves the console loop state untouched and the loop
simply proceeds to the next input; the quit signal also leaves the state
untouched; in the push variant any message whose "choice" value is not
exactly "A" or "B" is skipped with the state untouched. Since the state
equality covers the client-invocation counters and every network call happens
inside those clients, no network call is triggered. -/
theorem c3_invalid_choice_is_noop :
    (∀ (gen : String → String) (ig : String → Option Nat) (st : Engine.ConsoleState)
        (u : String) (rest : List String),
        pyUpper u ≠ "QUIT" → pyUpper u ≠ "A" → pyUpper u ≠ "B" →
        Engine.main_game_loop_from gen ig st (u :: rest)
          = Engine.main_game_loop_from gen ig st rest)
    ∧ (∀ (gen : String → String) (ig : String → Option Nat) (st : Engine.ConsoleState)
        (u : String) (rest : List String),
        pyUpper u = "QUIT" →
        Engine.main_game_loop_from gen ig st (u :: rest) = st)
    ∧ (∀ (gen : String → String) (ig : String → Option Nat) (st : WebApp.WsState)
        (m : WebApp.WsMsg) (rest : List WebApp.WsMsg),
        m.choice ≠ some "A" → m.choice ≠ some "B" →
        WebApp.loop gen ig st (m :: rest) = WebApp.loop gen ig st rest) := by
  refine ⟨?_, ?_, ?_⟩
  · intro gen ig st u rest h1 h2 h3
    simp [Engine.main_game_loop_from, h1, h2, h3]
  · intro gen ig st u rest h
    simp [Engine.main_game_loop_from, h]
  · intro gen ig st m rest h1 h2
    rcases m with ⟨mi, mc⟩
    rcases mc with _ | c
    · simp [WebApp.loop]
    · simp only [WebApp.WsMsg.choice] at h1 h2
      have hc : ¬(c = "A" ∨ c = "B") := by
        intro hor
        rcases hor with rfl | rfl
        · exact h1 rfl
        · exact h2 rfl
      simp [WebApp.loop, hc]

/-- Witness for C3 at concrete inputs: "x" on the console, a lowercase choice
on the push channel. -/
theorem c3_invalid_choice_is_noop_witness :
    Engine.main_game_loop_from constGen noImg sampleConsoleState ["x"]
      = Engine.main_game_loop_from constGen noImg sampleConsoleState []
    ∧ Engine.main_game_loop_from constGen noImg sampleConsoleState ["quit"]
      = sampleConsoleState
    ∧ WebApp.loop constGen noImg sampleWsState [⟨none, some "a"⟩]
      = WebApp.loop constGen noImg sampleWsState [] :=
  ⟨c3_invalid_choice_is_noop.1 constGen noImg sampleConsoleState "x" []
      (by decide) (by decide) (by decide),
    c3_invalid_choice_is_noop.2.1 constGen noImg sampleConsoleState "quit" [] (by decide),
    c3_invalid_choice_is_noop.2.2 constGen noImg sampleWsState ⟨none, some "a"⟩ []
      (by decide) (by decide)⟩

/-- Claim C4: evaluation of both illustration clients at a scripted
model-loading response (status 503, JSON body carrying "error" and
"estimated_time" 20). Both variants perform exactly one HTTP call, sleep
never, and return None: the console variant's retry branch is unreachable
because `if e.response:` uses requests Response truthiness (status < 400),
false for every HTTPError, and the push variant has no retry logic at all. -/
theorem c4_loading_response_no_retry :
    Engine.generate_image_with_stable_diffusion "hf_key"
        [SDHttp.resp 503 (SDBody.loadingJson "Model is currently loading" 20)]
      = some ⟨SDResult.noImage, 1, []⟩
    ∧ WebApp.generate_image_with_stable_diffusion "hf_key"
        (SDHttp.resp 503 (SDBody.loadingJson "Model is currently loading" 20))
      = ⟨SDResult.noImage, 1, []⟩ :=
  ⟨rfl, rfl⟩

/-- Claim C5: with the image credential missing (empty HUGGINGFACE_API_KEY),
both illustration clients return None having performed zero HTTP calls,
whatever the scripted network would have answered. -/
theorem c5_missing_key_no_network (outcomes : List SDHttp) (o : SDHttp) :
    Engine.generate_image_with_stable_diffusion "" outcomes
      = some ⟨SDResult.noImage, 0, []⟩
    ∧ WebApp.generate_image_with_stable_diffusion "" o = ⟨SDResult.noImage, 0, []⟩ := by
  constructor
  · cases outcomes with
    | nil => rfl
    | cons h rest =>
      cases h with
      | exn => rfl
      | resp status body => rfl
  · rfl

/-- Claim C6, as stated, is false for one of its listed cases: a success
response whose body is not a decodable image makes Image.open raise an
uncaught decoding error past the client's boundary in both variants. -/
theorem c6_counterexample :
    Engine.generate_image_with_stable_diffusion "hf_key" [SDHttp.resp 200 SDBody.rawText]
      = some ⟨SDResult.raised, 1, []⟩
    ∧ WebApp.generate_image_with_stable_diffusion "hf_key" (SDHttp.resp 200 SDBody.rawText)
      = ⟨SDResult.raised, 1, []⟩ :=
  ⟨rfl, rfl⟩

/-- Claim C6 (amended): on any image-generation failure signalled at the HTTP
layer — a request exception without a response, or an HTTP error status with
any body, loading envelope or not — both illustration clients return None
after exactly one HTTP call, without raising; only a success-status response
whose body is not a decodable image raises past the boundary. -/
theorem c6_http_failures_return_none (key : String) (status : Nat) (body : SDBody)
    (rest : List SDHttp) (hk : key ≠ "") (h4 : 400 ≤ status) (h6 : status < 600) :
    Engine.generate_image_with_stable_diffusion key (SDHttp.resp status body :: rest)
      = some ⟨SDResult.noImage, 1, []⟩
    ∧ WebApp.generate_image_with_stable_diffusion key (SDHttp.resp status body)
      = ⟨SDResult.noImage, 1, []⟩
    ∧ Engine.generate_image_with_stable_diffusion key (SDHttp.exn :: rest)
      = some ⟨SDResult.noImage, 1, []⟩
    ∧ WebApp.generate_image_with_stable_diffusion key SDHttp.exn
      = ⟨SDResult.noImage, 1, []⟩ := by
  have hlt : ¬ status < 400 := by omega
  refine ⟨?_, ?_, ?_, ?_⟩
  · simp [Engine.generate_image_with_stable_diffusion, hk, h4, h6, hlt]
  · simp [WebApp.generate_image_with_stable_diffusion, hk, h4, h6]
  · simp [Engine.generate_image_with_stable_diffusion, hk]
  · simp [WebApp.generate_image_with_stable_diffusion, hk]

/-- Witness for C6's amended theorem at a concrete 503 with a non-loading
JSON body. -/
theorem c6_http_failures_return_none_witness :
    Engine.generate_image_with_stable_diffusion "hf_key" [SDHttp.resp 503 SDBody.otherJson]
      = some ⟨SDResult.noImage, 1, []⟩
    ∧ WebApp.generate_image_with_stable_diffusion "hf_key" (SDHttp.resp 503 SDBody.otherJson)
      = ⟨SDResult.noImage, 1, []⟩ :=
  ⟨(c6_http_failures_return_none "hf_key" 503 SDBody.otherJson []
      (by decide) (by omega) (by omega)).1,
    (c6_http_failures_return_none "hf_key" 503 SDBody.otherJson []
      (by decide) (by omega) (by omega)).2.1⟩

/-- Claim C7: both image-prompt derivers return the completion client's
output post-processed so that it contains no newline and no star and has no
leading or trailing whitespace (stripping again changes nothing). -/
theorem c7_visual_prompt_postprocessing (gen : String → String) (s : String) :
    Engine.generate_visual_prompt gen s = pyClean (gen (Engine.visual_wrap s))
    ∧ WebApp.generate_visual_prompt_async gen s = pyClean (gen (WebApp.visual_wrap s))
    ∧ (Engine.generate_visual_prompt gen s).toList.count '\n' = 0
    ∧ (Engine.generate_visual_prompt gen s).toList.count '*' = 0
    ∧ pyLStrip (Engine.generate_visual_prompt gen s).toList
        = (Engine.generate_visual_prompt gen s).toList
    ∧ pyRStrip (Engine.generate_visual_prompt gen s).toList
        = (Engine.generate_visual_prompt gen s).toList
    ∧ (WebApp.generate_visual_prompt_async gen s).toList.count '\n' = 0
    ∧ (WebApp.generate_visual_prompt_async gen s).toList.count '*' = 0
    ∧ pyLStrip (WebApp.generate_visual_prompt_async gen s).toList
        = (WebApp.generate_visual_prompt_async gen s).toList
    ∧ pyRStrip (WebApp.generate_visual_prompt_async gen s).toList
        = (WebApp.generate_visual_prompt_async gen s).toList := by
  refine ⟨rfl, rfl, ?_, ?_, ?_, ?_, ?_, ?_, ?_, ?_⟩
  · exact List.count_eq_zero.mpr (pyCleanL_no_newline _)
  · exact List.count_eq_zero.mpr (pyCleanL_no_star _)
  · exact pyCleanL_lFix _
  · exact pyCleanL_rFix _
  · exact List.count_eq_zero.mpr (pyCleanL_no_newline _)
  · exact List.count_eq_zero.mpr (pyCleanL_no_star _)
  · exact pyCleanL_lFix _
  · exact pyCleanL_rFix _

/-- Claim C8: in both session loops a valid turn appends exactly the choice
line and the scene line returned by the completion client, whatever that text
is — in particular when it is only the error sentinel — and the transcript
only ever grows by appending (the old transcript is a prefix of the new one),
so no entry is removed or mutated. -/
theorem c8_scene_appended_unconditionally :
    (∀ (gen : String → String) (ig : String → Option Nat) (st : Engine.ConsoleState)
        (c : String),
        (Engine.turn gen ig st c).story_history
          = st.story_history ++ ["User chose: " ++ c,
              "AI Scene: " ++ gen (Engine.next_prompt
                (st.story_history ++ ["User chose: " ++ c]))])
    ∧ (∀ (gen : String → String) (ig : String → Option Nat) (st : WebApp.WsState)
        (c : String),
        (WebApp.turn gen ig st c).story_history
          = st.story_history ++ ["User chose: " ++ c,
              "AI Scene: " ++ gen (WebApp.next_prompt
                (st.story_history ++ ["User chose: " ++ c]))])
    ∧ (∀ (ig : String → Option Nat) (st : Engine.ConsoleState) (c : String),
        (Engine.turn (fun _ => "Error: Could not connect to the AI.") ig st c).story_history
          = st.story_history ++ ["User chose: " ++ c,
              "AI Scene: Error: Could not connect to the AI."])
    ∧ (∀ (ig : String → Option Nat) (st : WebApp.WsState) (c : String),
        (WebApp.turn (fun _ => "Error: The AI storyteller is currently unavailable.")
            ig st c).story_history
          = st.story_history ++ ["User chose: " ++ c,
              "AI Scene: Error: The AI storyteller is currently unavailable."])
    ∧ (∀ (gen : String → String) (ig : String → Option Nat) (st : Engine.ConsoleState)
        (inputs : List String),
        ∃ t, st.story_history ++ t
          = (Engine.main_game_loop_from gen ig st inputs).story_history)
    ∧ (∀ (gen : String → String) (ig : String → Option Nat) (st : WebApp.WsState)
        (msgs : List WebApp.WsMsg),
        ∃ t, st.story_history ++ t = (WebApp.loop gen ig st msgs).story_history) := by
  refine ⟨engine_turn_history, webapp_turn_history, ?_, ?_, ?_, ?_⟩
  · intro ig st c
    rw [engine_turn_history]
    rfl
  · intro ig st c
    rw [webapp_turn_history]
    rfl
  · intro gen ig st inputs
    exact engine_loop_extends gen ig inputs st
  · intro gen ig st msgs
    exact ws_loop_extends gen ig msgs st

/-- Claim C9: when the session-start message has no "idea" field the push
session proceeds exactly as if the fixed default premise had been supplied:
the premise line records the default idea, the opening pipeline runs (two
completion-client invocations), and the whole session is identical to one
started with the default idea. -/
theorem c9_missing_idea_uses_default (gen : String → String) (ig : String → Option Nat)
    (c : Option String) (rest : List WebApp.WsMsg) :
    WebApp.start gen ig ⟨none, c⟩ = WebApp.start gen ig ⟨some WebApp.defaultIdea, c⟩
    ∧ (WebApp.start gen ig ⟨none, c⟩).story_history.head?
        = some "The user\x27s character is a brave adventurer in a mysterious land."
    ∧ WebApp.websocket_endpoint gen ig ⟨none, c⟩ rest
        = WebApp.websocket_endpoint gen ig ⟨some WebApp.defaultIdea, c⟩ rest
    ∧ (WebApp.start gen ig ⟨none, c⟩).geminiCalls = 2 :=
  ⟨rfl, rfl, rfl, rfl⟩

/-- Claim C10: the console loop upper-cases the input, so any string
upper-casing to "A" runs a turn with choice "A" and any letter-casing of
"quit" terminates the loop; the push loop compares the raw "choice" value, so
any value other than the exact strings "A" and "B" (in particular lowercase
"a") is silently ignored while the exact string "A" runs a turn. -/
theorem c10_choice_case_handling :
    (∀ (gen : String → String) (ig : String → Option Nat) (st : Engine.ConsoleState)
        (u : String) (rest : List String),
        pyUpper u = "A" →
        Engine.main_game_loop_from gen ig st (u :: rest)
          = Engine.main_game_loop_from gen ig (Engine.turn gen ig st "A") rest)
    ∧ (∀ (gen : String → String) (ig : String → Option Nat) (st : Engine.ConsoleState)
        (u : String) (rest : List String),
        pyUpper u = "QUIT" →
        Engine.main_game_loop_from gen ig st (u :: rest) = st)
    ∧ (∀ (gen : String → String) (ig : String → Option Nat) (st : WebApp.WsState)
        (c : String) (rest : List WebApp.WsMsg),
        c ≠ "A" → c ≠ "B" →
        WebApp.loop gen ig st (⟨none, some c⟩ :: rest) = WebApp.loop gen ig st rest)
    ∧ (∀ (gen : String → String) (ig : String → Option Nat) (st : WebApp.WsState)
        (rest : List WebApp.WsMsg),
        WebApp.loop gen ig st (⟨none, some "A"⟩ :: rest)
          = WebApp.loop gen ig (WebApp.turn gen ig st "A") rest) := by
  refine ⟨?_, ?_, ?_, ?_⟩
  · intro gen ig st u rest h
    have hq : pyUpper u ≠ "QUIT" := by rw [h]; decide
    simp [Engine.main_game_loop_from, h, hq]
  · intro gen ig st u rest h
    simp [Engine.main_game_loop_from, h]
  · intro gen ig st c rest h1 h2
    have hc : ¬(c = "A" ∨ c = "B") := by
      intro hor
      rcases hor with rfl | rfl
      · exact h1 rfl
      · exact h2 rfl
    simp [WebApp.loop, hc]
  · intro gen ig st rest
    simp [WebApp.loop]

/-- Witness for C10 at concrete inputs: lowercase "a" advances the console
loop, mixed-case "qUiT" quits it, lowercase "a" is ignored by the push loop. -/
theorem c10_choice_case_handling_witness :
    Engine.main_game_loop_from constGen noImg sampleConsoleState ["a"]
      = Engine.main_game_loop_from constGen noImg
          (Engine.turn constGen noImg sampleConsoleState "A") []
    ∧ Engine.main_game_loop_from constGen noImg sampleConsoleState ["qUiT"]
      = sampleConsoleState
    ∧ WebApp.loop constGen noImg sampleWsState [⟨none, some "a"⟩]
      = WebApp.loop constGen noImg sampleWsState [] :=
  ⟨c10_choice_case_handling.1 constGen noImg sampleConsoleState "a" [] (by decide),
    c10_choice_case_handling.2.1 constGen noImg sampleConsoleState "qUiT" [] (by decide),
    c10_choice_case_handling.2.2.1 constGen noImg sampleWsState "a" []
      (by decide) (by decide)⟩

end Elysium
